import Mathlib

/-!
Verification development for the `surfwax_iss` ISS tracker service
(`iss_tracker.py`, a Flask application over one process-wide ephemeris
dictionary).

The embedding translates each route handler into a Lean function over an
explicit store state.  Conventions used throughout:

* The global `data` dictionary is modelled as `Option Dataset`: `none` is the
  empty dictionary (before any load / after `data.clear()`), `some ds` is a
  fully loaded OEM document.  The real feed always yields the full nested
  structure, so a loaded document always has all keys present.
* `xmltodict` leaf values (such as `X_DOT`) are modelled by `Node`: a dict
  carrying an optional `#text` entry, a bare string, or `None`.
* Python `float` values parsed from decimal numerals are modelled exactly as
  scaled decimals (`DecimalNum`, value `mant / 10 ^ exp`), and the kinematics
  arithmetic (`math.sqrt`, `math.atan2`, `math.degrees`) is carried out over
  `ℝ`.  `math.atan2 y x` is `Complex.arg ⟨x, y⟩` (reals have no negative
  zero, so the IEEE branch cuts do not arise).
* Wall-clock instants are modelled at whole-second resolution (`ℤ`):
  `time.mktime` only ever returns whole seconds here, and every claim is
  about second-level arithmetic.
* The handlers reached through Flask read `limit`/`offset` from the request
  query string; a query argument is modelled by `Arg` after `int()` parsing:
  absent, unparseable, or an integer.
* A handler outcome is `Except Fail α`: either a normal response, an HTTP 400
  error (`Fail.http`), or an uncaught Python exception escaping the handler
  (`Fail.exn`).  Handlers that cannot raise use the plain `Err` type.
* The host timezone is modelled as a fixed offset `tz` (seconds east of UTC):
  `time.mktime` interprets a parsed struct as local wall-clock time, so it
  subtracts `tz` from the pure-UTC interpretation.  (DST complications only
  add further skew; a fixed offset is enough to witness the dependence.)
* The Nominatim reverse geocoder is an external collaborator and is passed in
  as a function `ℝ → ℝ → Option String`; `none` models the `AttributeError`
  fallback path for a missing result.
-/

deriving instance DecidableEq for Except

namespace IssTracker

/-- A leaf value in the `xmltodict` document: an element with attributes
becomes a dict (whose `#text` entry may be absent for an empty element), an
attribute-less element becomes a bare string, an empty element `None`. -/
inductive Node where
  | dict (text : Option String)
  | str (s : String)
  | null
deriving DecidableEq

/-- One `<stateVector>` entry of the OEM document.  `EPOCH` is always the
plain timestamp string in the feed; the six numeric children are kept as raw
`Node`s exactly as the handlers receive them. -/
structure StateVector where
  epoch : String
  x : Node
  y : Node
  z : Node
  xdot : Node
  ydot : Node
  zdot : Node
deriving DecidableEq

/-- The loaded OEM document (`data` when non-empty).  `header` and `metadata`
are opaque pass-through blocks, modelled as strings. -/
structure Dataset where
  header : String
  metadata : String
  comments : List String
  stateVectors : List StateVector
deriving DecidableEq

/-- The HTTP 400 error kinds produced by the handlers, one per distinct
error message in the source. -/
inductive Err where
  | noData
  | invalidLimit
  | invalidOffset
  | emptyRange
  | unknownEpoch
  | invalidEpoch
deriving DecidableEq

/-- The literal response bodies paired with status 400 in the source.  These
matter because `get_state_vectors` evaluates `epoch not in get_epochs()`,
and when `get_epochs` returned an `(message, 400)` tuple that membership
test is against the tuple's elements. -/
def errMsg : Err → String
  | .noData => "No data found. Please reload data.\n"
  | .invalidLimit => "Bad Request. Invalid limit parameter.\n"
  | .invalidOffset => "Bad Request. Invalid offset parameter.\n"
  | .emptyRange => "Bad Request. `offset` or `limit` parameter is either too large or too small.\n"
  | .unknownEpoch => "The epoch you requested is not in the data.\n"
  | .invalidEpoch => "We are unable to calculate speed. Invalid Epoch.\n"

/-- Uncaught Python exception kinds relevant to the handlers. -/
inductive ExnKind where
  | typeError
  | valueError
  | keyError
deriving DecidableEq

/-- Outcome of a request handler: a response, an HTTP 400 response, or an
exception escaping the handler (a 500 for the client). -/
inductive Fail where
  | http (e : Err)
  | exn (k : ExnKind)
deriving DecidableEq

/-- A query-string argument after the `int(request.args.get(...))` step:
absent (default used), present but unparseable (`ValueError` from `int`),
or a parsed integer. -/
inductive Arg where
  | absent
  | invalid
  | int (n : ℤ)
deriving DecidableEq

/-- `int(request.args.get(name, default))` wrapped in `try/except ValueError`:
absent falls back to the supplied default, an unparseable value produces the
handler-specific 400 error. -/
def argInt (a : Arg) (dflt : ℤ) (e : Err) : Except Err ℤ :=
  match a with
  | .absent => .ok dflt
  | .invalid => .error e
  | .int n => .ok n

/-- Value of a decimal digit character. -/
def digitVal (c : Char) : ℕ := c.toNat - 48

/-- Value of a digit string, most significant first. -/
def natOfDigits (l : List Char) : ℕ := l.foldl (fun n c => n * 10 + digitVal c) 0

/-- A decimal numeral value, kept exact: `mant / 10 ^ exp`.  This is the
idealisation of the `float` produced by Python for the feed's plain decimal
numerals. -/
structure DecimalNum where
  mant : ℤ
  exp : ℕ
deriving DecidableEq

/-- The real number a parsed numeral denotes. -/
noncomputable def DecimalNum.toReal (d : DecimalNum) : ℝ := (d.mant : ℝ) / 10 ^ d.exp

/-- `float(s)` restricted to plain decimal literals with optional sign and
one optional point (the numeral format of the OEM feed): `none` models the
`ValueError` raised on anything else. -/
def parseDecimal (s : String) : Option DecimalNum :=
  let cs := s.toList
  let signAndRest : Bool × List Char :=
    match cs with
    | '-' :: r => (true, r)
    | '+' :: r => (false, r)
    | r => (false, r)
  let neg := signAndRest.1
  let body := signAndRest.2
  let intPart := body.takeWhile Char.isDigit
  let rest := body.dropWhile Char.isDigit
  let signed : ℕ → ℤ := fun n => if neg then -(n : ℤ) else (n : ℤ)
  match rest with
  | [] =>
    if intPart.isEmpty then none
    else some ⟨signed (natOfDigits intPart), 0⟩
  | '.' :: frac =>
    if frac.all Char.isDigit && !(intPart.isEmpty && frac.isEmpty) then
      some ⟨signed (natOfDigits (intPart ++ frac)), frac.length⟩
    else none
  | _ => none

/-- `float(node['#text'])` with the exception it raises on each malformed
shape: subscripting a bare string or `None` raises `TypeError`, a dict
without `#text` raises `KeyError`, and an unparseable text raises
`ValueError` from `float`. -/
def floatOfNode (n : Node) : Except ExnKind DecimalNum :=
  match n with
  | .dict (some t) =>
    match parseDecimal t with
    | some d => .ok d
    | none => .error .valueError
  | .dict none => .error .keyError
  | .str _ => .error .typeError
  | .null => .error .typeError

/-- A broken-down time as produced by `time.strptime` with format
`%Y-%jT%H:%M:%S` (year, day of year, hour, minute, second). -/
structure Tm where
  year : ℕ
  yday : ℕ
  hour : ℕ
  minute : ℕ
  sec : ℕ
deriving DecidableEq

/-- `epoch[:-5]`: Python drops the last five characters (the `.fffZ`
suffix). -/
def dropLast5 (s : String) : String := ⟨s.toList.take (s.toList.length - 5)⟩

/-- `time.strptime(s, '%Y-%jT%H:%M:%S')` on the canonical fixed-width
rendering `YYYY-DDDThh:mm:ss` used by the feed, with the field validation
strptime performs (`%j` in 1–366, `%H` ≤ 23, `%M` ≤ 59, `%S` ≤ 61);
`none` models the `ValueError` on any other shape. -/
def strptimeYJ (s : String) : Option Tm :=
  match s.toList with
  | [y1, y2, y3, y4, '-', d1, d2, d3, 'T', h1, h2, ':', m1, m2, ':', s1, s2] =>
    if ([y1, y2, y3, y4, d1, d2, d3, h1, h2, m1, m2, s1, s2].all Char.isDigit) then
      let y := natOfDigits [y1, y2, y3, y4]
      let d := natOfDigits [d1, d2, d3]
      let h := natOfDigits [h1, h2]
      let mi := natOfDigits [m1, m2]
      let se := natOfDigits [s1, s2]
      if 1 ≤ d ∧ d ≤ 366 ∧ h ≤ 23 ∧ mi ≤ 59 ∧ se ≤ 61 then
        some ⟨y, d, h, mi, se⟩
      else none
    else none
  | _ => none

/-- Leap years in `[1, n]` (Gregorian). -/
def leapsUpTo (n : ℕ) : ℕ := n / 4 - n / 100 + n / 400

/-- Days from 1970-01-01 to the start of year `y` (for `y ≥ 1970`, the
domain of the feed's epochs). -/
def daysFrom1970 (y : ℕ) : ℕ := 365 * (y - 1970) + (leapsUpTo (y - 1) - leapsUpTo 1969)

/-- The POSIX timestamp of a broken-down time read as UTC (what
`calendar.timegm` would give). -/
def timegm (t : Tm) : ℤ :=
  ((daysFrom1970 t.year + (t.yday - 1)) * 86400 + t.hour * 3600 + t.minute * 60 + t.sec : ℕ)

/-- `time.mktime` interprets the struct as LOCAL wall-clock time, so on a
host at fixed offset `tz` seconds east of UTC it returns the pure-UTC
timestamp shifted by `-tz`. -/
def mktime (tz : ℤ) (t : Tm) : ℤ := timegm t - tz

/-- `time.mktime(time.strptime(e[:-5], '%Y-%jT%H:%M:%S'))`, the absolute
timestamp the handlers derive from an epoch string (lines 292 and 325). -/
def epochTimestamp (tz : ℤ) (e : String) : Option ℤ :=
  (strptimeYJ (dropLast5 e)).map (mktime tz)

/-- `time.gmtime(t).tm_hour`. -/
def gmHour (t : ℤ) : ℤ := (t.emod 86400) / 3600

/-- `time.gmtime(t).tm_min`. -/
def gmMin (t : ℤ) : ℤ := ((t.emod 86400).emod 3600) / 60

/-- Python slice `l[i:]` (negative starts count from the end and clip). -/
def pyDrop (l : List α) (i : ℤ) : List α :=
  if 0 ≤ i then l.drop i.toNat else l.drop ((l.length + i).toNat)

/-- Python slice `l[:i]` (negative stops count from the end and clip). -/
def pyTake (l : List α) (i : ℤ) : List α :=
  if 0 ≤ i then l.take i.toNat else l.take ((l.length + i).toNat)

/-- `min(xs, key=abs)` accumulator scan: the kept value changes only on a
strict decrease of `abs`, so the first minimiser wins. -/
def pyMinAbsGo (b : ℤ) : List ℤ → ℤ
  | [] => b
  | x :: xs => pyMinAbsGo (if |x| < |b| then x else b) xs

/-- `min(xs, key=abs)`; `none` models the `ValueError` on an empty list. -/
def pyMinAbs : List ℤ → Option ℤ
  | [] => none
  | x :: xs => some (pyMinAbsGo x xs)

/-- `math.degrees`. -/
noncomputable def degrees (r : ℝ) : ℝ := r * 180 / Real.pi

/-- `math.atan2 y x` over the reals: the argument of the complex number
`x + y*I`, in `(-π, π]`. -/
noncomputable def atan2 (y x : ℝ) : ℝ := Complex.arg ⟨x, y⟩

/-- `MEAN_EARTH_RADIUS` (line 13). -/
noncomputable def MEAN_EARTH_RADIUS : ℝ := 6371.0

/-- `correct_longtitude` (lines 45–58): a single-step wrap into
`[-180, 180]`. -/
noncomputable def correct_longtitude (num : ℝ) : ℝ :=
  if num > 180 then num - 360
  else if num < -180 then num + 360
  else num

/-- `get_data` (lines 15–27).  The upstream fetch-and-parse is the external
collaborator, passed in as `upstream`.  The function clears the store FIRST
(`data.clear()`), then fetches; a raising fetch/parse therefore leaves the
store empty, and the exception propagates (second component).  The prior
store contents never influence the outcome. -/
def get_data (upstream : Except Unit Dataset) (_store : Option Dataset) :
    (Option Dataset) × Except Unit Dataset :=
  match upstream with
  | .error e => (none, .error e)
  | .ok d => (some d, .ok d)

/-- `GET /` (`get_oem_data`, lines 61–71): reload and return. -/
def get_oem_data (upstream : Except Unit Dataset) (store : Option Dataset) :
    (Option Dataset) × Except Unit Dataset :=
  get_data upstream store

/-- `POST /post-data` (`post_data`, lines 210–221): reload and return. -/
def post_data (upstream : Except Unit Dataset) (store : Option Dataset) :
    (Option Dataset) × Except Unit Dataset :=
  get_data upstream store

/-- `GET /epochs` (`get_epochs`, lines 74–107): the full ordered epoch list,
windowed by the request's `offset`/`limit` with Python slice semantics
(`epochs[offset:][:limit]`), `limit` parsed before `offset` and defaulting
to the full length; an empty window is a 400. -/
def get_epochs (store : Option Dataset) (limitArg offsetArg : Arg) :
    Except Err (List String) :=
  match store with
  | none => .error .noData
  | some ds =>
    let epochs := ds.stateVectors.map StateVector.epoch
    match argInt limitArg epochs.length .invalidLimit with
    | .error e => .error e
    | .ok limit =>
      match argInt offsetArg 0 .invalidOffset with
      | .error e => .error e
      | .ok offset =>
        let window := pyTake (pyDrop epochs offset) limit
        if window.isEmpty then .error .emptyRange else .ok window

/-- `epoch not in get_epochs()` (line 124): when `get_epochs` returned a
list this is list membership; when it returned an `(message, 400)` tuple,
Python tests membership among the tuple's two elements, so only the message
string could match. -/
def epochsContains (r : Except Err (List String)) (e : String) : Bool :=
  match r with
  | .ok l => l.contains e
  | .error err => e == errMsg err

/-- `GET /epochs/<epoch>` (`get_state_vectors`, lines 110–131).  NOTE: the
membership guard calls `get_epochs()`, which reads the CURRENT request's
`limit`/`offset` arguments, so the guard is against the windowed list; the
final scan is over the full dataset.  Falling off the loop returns `None`
(`.ok none`). -/
def get_state_vectors (store : Option Dataset) (epoch : String)
    (limitArg offsetArg : Arg) : Except Err (Option StateVector) :=
  match store with
  | none => .error .noData
  | some ds =>
    if epochsContains (get_epochs store limitArg offsetArg) epoch then
      .ok (ds.stateVectors.find? (fun sv => sv.epoch == epoch))
    else
      .error .unknownEpoch

/-- A `{value, units}` response body (speed, altitude). -/
structure ValUnits where
  value : ℝ
  units : String

/-- `GET /epochs/<epoch>/speed` (`calculate_speed`, lines 134–158).  The
`try` block catches ONLY `TypeError` (subscripting the error tuple, `None`,
or a bare string); a `KeyError` from a missing `#text` or a `ValueError`
from `float` on unparseable text escapes the handler. -/
noncomputable def calculate_speed (store : Option Dataset) (epoch : String)
    (limitArg offsetArg : Arg) : Except Fail ValUnits :=
  match store with
  | none => .error (.http .noData)
  | some _ =>
    match get_state_vectors store epoch limitArg offsetArg with
    | .error _ => .error (.http .invalidEpoch)
    | .ok none => .error (.http .invalidEpoch)
    | .ok (some sv) =>
      match floatOfNode sv.xdot with
      | .error .typeError => .error (.http .invalidEpoch)
      | .error k => .error (.exn k)
      | .ok dx =>
        match floatOfNode sv.ydot with
        | .error .typeError => .error (.http .invalidEpoch)
        | .error k => .error (.exn k)
        | .ok dy =>
          match floatOfNode sv.zdot with
          | .error .typeError => .error (.http .invalidEpoch)
          | .error k => .error (.exn k)
          | .ok dz =>
            .ok ⟨Real.sqrt (dx.toReal ^ 2 + dy.toReal ^ 2 + dz.toReal ^ 2), "km/s"⟩

/-- `DELETE /delete-data` (`delete_data`, lines 193–207): 400 when the store
is already empty, otherwise clear it; returns the confirmation plus the new
store state. -/
def delete_data (store : Option Dataset) : Except Err (String × Option Dataset) :=
  match store with
  | none => .error .noData
  | some _ => .ok ("All the data has been removed.\n", none)

/-- `GET /comment` (`get_comment`, lines 224–236): the `KeyError` on the
empty dictionary is the no-data 400. -/
def get_comment (store : Option Dataset) : Except Err (List String) :=
  match store with
  | none => .error .noData
  | some ds => .ok ds.comments

/-- `GET /header` (`get_header`, lines 239–251). -/
def get_header (store : Option Dataset) : Except Err String :=
  match store with
  | none => .error .noData
  | some ds => .ok ds.header

/-- `GET /metadata` (`get_metadata`, lines 254–266). -/
def get_metadata (store : Option Dataset) : Except Err String :=
  match store with
  | none => .error .noData
  | some ds => .ok ds.metadata

/-- The `GET /epochs/<epoch>/location` response body.  The source spells the
longitude key `longtitude`. -/
structure Location where
  latitude : ℝ
  longtitude : ℝ
  altitude : ValUnits
  geo : String

/-- Lines 292–310 of `get_location`: the latitude/longitude/altitude
formulas and the geocode fallback, for a record with parsed position
`(qx, qy, qz)` and epoch timestamp `te` (the `mktime` result). -/
noncomputable def locationBody (qx qy qz : DecimalNum) (te : ℤ)
    (geocoder : ℝ → ℝ → Option String) : Location :=
  let hrs := gmHour te
  let mins := gmMin te
  let x := qx.toReal
  let y := qy.toReal
  let z := qz.toReal
  let lat := degrees (atan2 z (Real.sqrt (x ^ 2 + y ^ 2)))
  let lonRaw := degrees (atan2 y x) -
    (((hrs : ℝ) - 12) + (mins : ℝ) / 60) * (360 / 24) + 14
  let alt := Real.sqrt (x ^ 2 + y ^ 2 + z ^ 2) - MEAN_EARTH_RADIUS
  let lon := correct_longtitude lonRaw
  let geoStr :=
    match geocoder lat lon with
    | some s => s
    | none => "Unknown location, possibly somewhere over the ocean."
  ⟨lat, lon, ⟨alt, "km"⟩, geoStr⟩

/-- `GET /epochs/<epoch>/location` (`get_location`, lines 269–311).  The
`try` block around the position reads catches EVERY exception as a 400; the
later `strptime` call is unguarded, so a malformed `EPOCH` escapes as a
`ValueError`.  `geocoder` is the external reverse-geocoding collaborator;
a missing result falls back to the fixed sentinel string. -/
noncomputable def get_location (store : Option Dataset) (epoch : String)
    (limitArg offsetArg : Arg) (tz : ℤ) (geocoder : ℝ → ℝ → Option String) :
    Except Fail Location :=
  match store with
  | none => .error (.http .noData)
  | some _ =>
    match get_state_vectors store epoch limitArg offsetArg with
    | .error _ => .error (.http .invalidEpoch)
    | .ok none => .error (.http .invalidEpoch)
    | .ok (some sv) =>
      match floatOfNode sv.x, floatOfNode sv.y, floatOfNode sv.z with
      | .ok qx, .ok qy, .ok qz =>
        match strptimeYJ (dropLast5 sv.epoch) with
        | none => .error (.exn .valueError)
        | some tmv => .ok (locationBody qx qy qz (mktime tz tmv) geocoder)
      | _, _, _ => .error (.http .invalidEpoch)

/-- The `GET /now` response body. -/
structure NowRes where
  closest_epoch : String
  seconds_from_now : ℤ
  location : Except Fail Location
  speed : Except Fail ValUnits

/-- The `for e in epochs` timestamp loop of `location_now` (lines 324–327):
converts each epoch string, raising (`none`) at the first malformed one. -/
def epochTimes (tz : ℤ) : List String → Option (List ℤ)
  | [] => some []
  | e :: es =>
    match epochTimestamp tz e with
    | none => none
    | some t =>
      match epochTimes tz es with
      | none => none
      | some ts => some (t :: ts)

/-- `GET /now` (`location_now`, lines 313–340): signed differences
`time_now - epoch_time`, `min(..., key=abs)`, `list.index` of that value,
then the location and speed of the chosen epoch (those two handlers re-read
the same request arguments).  The unused `epoch_time` recomputation at lines
333–334 is dead code and omitted. -/
noncomputable def location_now (store : Option Dataset)
    (limitArg offsetArg : Arg) (tz : ℤ) (time_now : ℤ)
    (geocoder : ℝ → ℝ → Option String) : Except Fail NowRes :=
  match store with
  | none => .error (.http .noData)
  | some _ =>
    match get_epochs store limitArg offsetArg with
    | .error _ => .error (.http .noData)
    | .ok epochs =>
      match epochTimes tz epochs with
      | none => .error (.exn .valueError)
      | some times =>
        let time_diff := times.map (fun t => time_now - t)
        match pyMinAbs time_diff with
        | none => .error (.exn .valueError)
        | some v =>
          let position := time_diff.findIdx (fun d => decide (d = v))
          let closest := epochs.getD position ""
          .ok ⟨closest, v,
            get_location store closest limitArg offsetArg tz geocoder,
            calculate_speed store closest limitArg offsetArg⟩

/-! ### Concrete sample data for witnesses and counterexamples -/

/-- A well-formed record whose seven children are attribute-carrying nodes
with the given `#text` values, as `xmltodict` produces for the real feed. -/
def svNum (e px py pz vx vy vz : String) : StateVector :=
  ⟨e, .dict (some px), .dict (some py), .dict (some pz),
      .dict (some vx), .dict (some vy), .dict (some vz)⟩

/-- Day-of-year 2024-001 epochs at 00:00:00, 00:01:30 and 00:02:30 UTC
(POSIX 1704067200, 1704067290, 1704067350), with velocities `(1,0,0)`,
`(0,2,0)`, `(0,0,3)`. -/
def ds3 : Dataset :=
  ⟨"hdr", "meta", ["sample comment"],
   [svNum "2024-001T00:00:00.000Z" "1.0" "0.0" "0.0" "1.0" "0.0" "0.0",
    svNum "2024-001T00:01:30.000Z" "0.0" "1.0" "0.0" "0.0" "2.0" "0.0",
    svNum "2024-001T00:02:30.000Z" "0.0" "0.0" "1.0" "0.0" "0.0" "3.0"]⟩

/-- A record whose `X_DOT` text is not a numeral: `float` raises
`ValueError`, which `calculate_speed` does not catch. -/
def svBadText : StateVector :=
  ⟨"2024-001T00:00:00.000Z",
   .dict (some "1.0"), .dict (some "0.0"), .dict (some "0.0"),
   .dict (some "abc"), .dict (some "0.0"), .dict (some "0.0")⟩

def dsBadText : Dataset := ⟨"hdr", "meta", [], [svBadText]⟩

/-- A record whose `X_DOT` element is empty (`None` in `xmltodict`):
subscripting it raises `TypeError`, which `calculate_speed` catches. -/
def svBadNull : StateVector :=
  ⟨"2024-001T00:00:00.000Z",
   .dict (some "1.0"), .dict (some "0.0"), .dict (some "0.0"),
   .null, .dict (some "0.0"), .dict (some "0.0")⟩

def dsBadNull : Dataset := ⟨"hdr", "meta", [], [svBadNull]⟩

/-- A geocoder that never finds a place (the ocean fallback path). -/
def geoNone : ℝ → ℝ → Option String := fun _ _ => none

/-! ### Helper lemmas about the slicing, scanning and time primitives -/

theorem pyDrop_natCast (l : List α) (n : ℕ) : pyDrop l (n : ℤ) = l.drop n := by
  unfold pyDrop
  rw [if_pos (Int.natCast_nonneg n), Int.toNat_natCast]

theorem pyTake_natCast (l : List α) (n : ℕ) : pyTake l (n : ℤ) = l.take n := by
  unfold pyTake
  rw [if_pos (Int.natCast_nonneg n), Int.toNat_natCast]

theorem pyDrop_subset (l : List α) (i : ℤ) : pyDrop l i ⊆ l := by
  unfold pyDrop
  split <;> exact List.drop_subset _ _

theorem pyTake_subset (l : List α) (i : ℤ) : pyTake l i ⊆ l := by
  unfold pyTake
  split <;> exact List.take_subset _ _

/-- Whatever window `get_epochs` returns is a subset of the full epoch
list. -/
theorem get_epochs_ok_subset {ds : Dataset} {la oa : Arg} {l : List String}
    (h : get_epochs (some ds) la oa = .ok l) :
    l ⊆ ds.stateVectors.map StateVector.epoch := by
  unfold get_epochs at h
  cases la <;> cases oa <;>
    simp only [argInt] at h <;>
    first
    | (cases h)
    | (split at h
       · cases h
       · rw [Except.ok.injEq] at h
         subst h
         exact fun x hx => pyDrop_subset _ _ (pyTake_subset _ _ hx))

/-- With both arguments absent the window is the full epoch list (when the
dataset has records). -/
theorem get_epochs_default (ds : Dataset) (h : ds.stateVectors ≠ []) :
    get_epochs (some ds) .absent .absent = .ok (ds.stateVectors.map StateVector.epoch) := by
  have h2 : ds.stateVectors.map StateVector.epoch ≠ [] := by
    simpa using h
  unfold get_epochs argInt
  have hd : pyDrop (ds.stateVectors.map StateVector.epoch) (0 : ℤ) =
      ds.stateVectors.map StateVector.epoch := by
    simpa using pyDrop_natCast (ds.stateVectors.map StateVector.epoch) 0
  have ht : pyTake (ds.stateVectors.map StateVector.epoch)
      ((ds.stateVectors.map StateVector.epoch).length : ℤ) =
      ds.stateVectors.map StateVector.epoch := by
    rw [pyTake_natCast, List.take_length]
  simp only [hd, ht]
  rw [if_neg]
  simpa using h2

theorem pyMinAbsGo_keep (xs : List ℤ) : ∀ b, (∀ j, j < xs.length → |b| ≤ |xs.getD j 0|) →
    pyMinAbsGo b xs = b := by
  induction xs with
  | nil => intro b _; rfl
  | cons x xs ih =>
    intro b hb
    have h0 : |b| ≤ |x| := by simpa using hb 0 (by simp)
    rw [pyMinAbsGo, if_neg (not_lt.mpr h0)]
    exact ih b (fun j hj => by simpa using hb (j + 1) (by simpa using hj))

theorem pyMinAbsGo_pick (xs : List ℤ) : ∀ b (i : ℕ), i < xs.length →
    |xs.getD i 0| < |b| →
    (∀ j, j < i → |xs.getD i 0| < |xs.getD j 0|) →
    (∀ j, j < xs.length → |xs.getD i 0| ≤ |xs.getD j 0|) →
    pyMinAbsGo b xs = xs.getD i 0 := by
  induction xs with
  | nil => intro b i hi _ _ _; simp at hi
  | cons x xs ih =>
    intro b i hi hb hfirst hmin
    cases i with
    | zero =>
      simp only [List.getD_cons_zero] at hb hmin ⊢
      rw [pyMinAbsGo, if_pos hb]
      exact pyMinAbsGo_keep xs x (fun j hj => by simpa using hmin (j + 1) (by simpa using hj))
    | succ k =>
      have hx : |xs.getD k 0| < |x| := by simpa using hfirst 0 (Nat.succ_pos k)
      have hb2 : |xs.getD k 0| < |if |x| < |b| then x else b| := by
        split
        · exact hx
        · simpa using hb
      rw [pyMinAbsGo]
      simp only [List.getD_cons_succ]
      exact ih _ k (by simpa using hi) hb2
        (fun j hj => by simpa using hfirst (j + 1) (by omega))
        (fun j hj => by simpa using hmin (j + 1) (by simpa using hj))

/-- `min(xs, key=abs)` returns the value at the first index minimising the
absolute value. -/
theorem pyMinAbs_pick (xs : List ℤ) (i : ℕ) (hi : i < xs.length)
    (hfirst : ∀ j, j < i → |xs.getD i 0| < |xs.getD j 0|)
    (hmin : ∀ j, j < xs.length → |xs.getD i 0| ≤ |xs.getD j 0|) :
    pyMinAbs xs = some (xs.getD i 0) := by
  cases xs with
  | nil => simp at hi
  | cons x xs =>
    rw [pyMinAbs]
    congr 1
    cases i with
    | zero =>
      simp only [List.getD_cons_zero] at hmin ⊢
      exact pyMinAbsGo_keep xs x (fun j hj => by simpa using hmin (j + 1) (by simpa using hj))
    | succ k =>
      simp only [List.getD_cons_succ] at hfirst hmin ⊢
      exact pyMinAbsGo_pick xs x k (by simpa using hi)
        (by simpa using hfirst 0 (Nat.succ_pos k))
        (fun j hj => by simpa using hfirst (j + 1) (by omega))
        (fun j hj => by simpa using hmin (j + 1) (by simpa using hj))

/-- `list.index`: `findIdx` hits the first index whose entry satisfies the
test. -/
theorem findIdx_first (p : α → Bool) (xs : List α) : ∀ (i : ℕ) (d : α), i < xs.length →
    p (xs.getD i d) = true → (∀ j, j < i → p (xs.getD j d) = false) →
    xs.findIdx p = i := by
  induction xs with
  | nil => intro i d hi _ _; simp at hi
  | cons x xs ih =>
    intro i d hi hp hnot
    cases i with
    | zero =>
      simp only [List.getD_cons_zero] at hp
      simp [List.findIdx_cons, hp]
    | succ k =>
      have hx : p x = false := by simpa using hnot 0 (Nat.succ_pos k)
      simp only [List.getD_cons_succ] at hp
      rw [List.findIdx_cons]
      have hrec := ih k d (by simpa using hi) hp
        (fun j hj => by simpa using hnot (j + 1) (by omega))
      simp [hx, hrec]

theorem getD_map_int (l : List ℤ) (f : ℤ → ℤ) (j : ℕ) (hj : j < l.length) :
    (l.map f).getD j 0 = f (l.getD j 0) := by
  induction l generalizing j with
  | nil => simp at hj
  | cons x xs ih =>
    cases j with
    | zero => simp
    | succ k => simpa using ih k (by simpa using hj)

theorem epochTimes_length (tz : ℤ) (es : List String) : ∀ ts,
    epochTimes tz es = some ts → ts.length = es.length := by
  induction es with
  | nil =>
    intro ts h
    rw [epochTimes] at h
    cases h
    rfl
  | cons e es ih =>
    intro ts h
    rw [epochTimes] at h
    cases he : epochTimestamp tz e with
    | none => rw [he] at h; cases h
    | some t =>
      rw [he] at h
      cases hr : epochTimes tz es with
      | none => rw [hr] at h; cases h
      | some ts0 =>
        rw [hr] at h
        cases h
        simp [ih ts0 hr]

theorem gmHour_bounds (t : ℤ) : 0 ≤ gmHour t ∧ gmHour t ≤ 23 := by
  unfold gmHour
  have h1 : 0 ≤ t.emod 86400 := Int.emod_nonneg t (by norm_num)
  have h2 : t.emod 86400 < 86400 := Int.emod_lt_of_pos t (by norm_num)
  omega

theorem gmMin_bounds (t : ℤ) : 0 ≤ gmMin t ∧ gmMin t ≤ 59 := by
  unfold gmMin
  have h1 : 0 ≤ (t.emod 86400).emod 3600 := Int.emod_nonneg _ (by norm_num)
  have h2 : (t.emod 86400).emod 3600 < 3600 := Int.emod_lt_of_pos _ (by norm_num)
  omega

theorem atan2_le_pi (y x : ℝ) : atan2 y x ≤ Real.pi := Complex.arg_le_pi _

theorem neg_pi_lt_atan2 (y x : ℝ) : -Real.pi < atan2 y x := Complex.neg_pi_lt_arg _

theorem abs_atan2_le (y x : ℝ) (h : 0 ≤ x) : |atan2 y x| ≤ Real.pi / 2 :=
  Complex.abs_arg_le_pi_div_two_iff.mpr h

theorem degrees_le_180 {r : ℝ} (h : r ≤ Real.pi) : degrees r ≤ 180 := by
  rw [degrees, div_le_iff₀ Real.pi_pos]
  nlinarith [Real.pi_pos]

theorem neg_180_lt_degrees {r : ℝ} (h : -Real.pi < r) : -180 < degrees r := by
  rw [degrees, lt_div_iff₀ Real.pi_pos]
  nlinarith [Real.pi_pos]

theorem degrees_le_90 {r : ℝ} (h : r ≤ Real.pi / 2) : degrees r ≤ 90 := by
  rw [degrees, div_le_iff₀ Real.pi_pos]
  nlinarith [Real.pi_pos]

theorem neg_90_le_degrees {r : ℝ} (h : -(Real.pi / 2) ≤ r) : -90 ≤ degrees r := by
  rw [degrees, le_div_iff₀ Real.pi_pos]
  nlinarith [Real.pi_pos]

theorem locationBody_latitude (qx qy qz : DecimalNum) (te : ℤ)
    (geocoder : ℝ → ℝ → Option String) :
    (locationBody qx qy qz te geocoder).latitude =
      degrees (atan2 qz.toReal (Real.sqrt (qx.toReal ^ 2 + qy.toReal ^ 2))) := rfl

theorem locationBody_longtitude (qx qy qz : DecimalNum) (te : ℤ)
    (geocoder : ℝ → ℝ → Option String) :
    (locationBody qx qy qz te geocoder).longtitude =
      correct_longtitude (degrees (atan2 qy.toReal qx.toReal) -
        (((gmHour te : ℝ) - 12) + (gmMin te : ℝ) / 60) * (360 / 24) + 14) := rfl

/-! ### Claim C1 — load failure and the prior dataset -/

/-- Claim C1 is FALSE on the code: `get_data` executes `data.clear()` BEFORE
the fetch, so when the fetch/parse raises over a previously loaded store the
prior Dataset is gone — the store is left empty, not intact. -/
theorem c1_counterexample :
    (get_data (.error ()) (some ds3)).1 = none ∧
    (get_data (.error ()) (some ds3)).1 ≠ some ds3 :=
  ⟨rfl, by decide⟩

/-- Claim C1 (amended): a reload whose fetch or parse raises always leaves
the store empty (the prior Dataset is discarded up front by `data.clear()`),
and the exception propagates out of both `GET /` and `POST /post-data`. -/
theorem c1_failed_load (store : Option Dataset) (e : Unit) :
    get_oem_data (.error e) store = (none, .error e) ∧
    post_data (.error e) store = (none, .error e) :=
  ⟨rfl, rfl⟩

/-! ### Claim C2 — windowing of `GET /epochs` -/

/-- Claim C2: for every loaded dataset and all non-negative `offset` and
`limit`, `GET /epochs` returns exactly the slice
`epochs[offset : offset + limit]` clipped to the list, and fails with the
empty-range 400 instead of returning an empty list when that window is
empty. -/
theorem c2_windowing (ds : Dataset) (offset limit : ℕ) :
    get_epochs (some ds) (.int (limit : ℤ)) (.int (offset : ℤ)) =
      if ((ds.stateVectors.map StateVector.epoch).drop offset).take limit = [] then
        .error .emptyRange
      else .ok (((ds.stateVectors.map StateVector.epoch).drop offset).take limit) := by
  simp only [get_epochs, argInt]
  rw [pyDrop_natCast, pyTake_natCast]
  cases hw : ((ds.stateVectors.map StateVector.epoch).drop offset).take limit with
  | nil => simp [hw]
  | cons a l => simp [hw]

/-! ### Claim C3 — pagination arguments and the per-epoch lookup -/

/-- Claim C3 is FALSE on the code: `get_state_vectors` guards membership via
`get_epochs()`, which reads the CURRENT request's `limit`/`offset`; with
`offset=1` the first epoch falls outside the window and the lookup 400s,
while without pagination arguments it returns the record. -/
theorem c3_counterexample :
    get_state_vectors (some ds3) "2024-001T00:00:00.000Z" .absent (.int 1) ≠
      get_state_vectors (some ds3) "2024-001T00:00:00.000Z" .absent .absent := by
  decide

/-- Claim C3 (amended): pagination arguments leave the lookup unchanged
PROVIDED the requested epoch still lies inside the requested window; then
the membership guard passes and the scan over the full dataset gives the
same answer as the argument-free request. -/
theorem c3_window_membership (ds : Dataset) (e : String) (la oa : Arg) (l : List String)
    (h1 : get_epochs (some ds) la oa = .ok l) (h2 : e ∈ l) :
    get_state_vectors (some ds) e la oa = get_state_vectors (some ds) e .absent .absent := by
  have hsub := get_epochs_ok_subset h1
  have hefull : e ∈ ds.stateVectors.map StateVector.epoch := hsub h2
  have hne : ds.stateVectors ≠ [] := by
    intro h0
    rw [h0] at hefull
    simp at hefull
  have hc1 : epochsContains (get_epochs (some ds) la oa) e = true := by
    rw [h1]
    unfold epochsContains
    simpa using h2
  have hc2 : epochsContains (get_epochs (some ds) .absent .absent) e = true := by
    rw [get_epochs_default ds hne]
    unfold epochsContains
    simpa using hefull
  unfold get_state_vectors
  rw [hc1, hc2]

/-- Witness for C3 (amended) at a concrete window: with `offset=1` the
second epoch is still inside the window, and the paginated lookup agrees
with the unpaginated one. -/
theorem c3_witness :
    get_epochs (some ds3) .absent (.int 1) =
      .ok ["2024-001T00:01:30.000Z", "2024-001T00:02:30.000Z"] ∧
    "2024-001T00:01:30.000Z" ∈ ["2024-001T00:01:30.000Z", "2024-001T00:02:30.000Z"] ∧
    get_state_vectors (some ds3) "2024-001T00:01:30.000Z" .absent (.int 1) =
      get_state_vectors (some ds3) "2024-001T00:01:30.000Z" .absent .absent :=
  ⟨by decide, by decide,
   c3_window_membership ds3 "2024-001T00:01:30.000Z" .absent (.int 1)
     ["2024-001T00:01:30.000Z", "2024-001T00:02:30.000Z"] (by decide) (by decide)⟩

/-! ### Claim C6 — epoch timestamps and the host timezone -/

/-- Claim C6 is FALSE on the code: the parsed struct goes through
`time.mktime`, which interprets it as LOCAL wall-clock time, so the same
epoch string yields different absolute timestamps on hosts at different
UTC offsets (here offset 0 versus offset +1h). -/
theorem c6_counterexample :
    epochTimestamp 0 "2024-001T00:00:00.000Z" ≠
      epochTimestamp 3600 "2024-001T00:00:00.000Z" := by
  decide

/-- Claim C6 (amended): the timestamp is obtained by stripping the last five
characters and parsing `%Y-%jT%H:%M:%S`, but `time.mktime` applies a
local-timezone conversion: on a host at UTC offset `tz` the timestamp is
the pure-UTC value (the `tz = 0` run) shifted by `-tz`, so runs under
different host timezones differ by the offset difference. -/
theorem c6_localtime_shift (tz : ℤ) (e : String) :
    epochTimestamp tz e = (epochTimestamp 0 e).map (fun t => t - tz) := by
  unfold epochTimestamp
  cases strptimeYJ (dropLast5 e) <;> simp [mktime]

/-! ### Claim C8 — the empty store fails every operation with NoData -/

/-- Claim C8: with the store empty, every query operation — epochs listing,
per-epoch lookup, speed, location, now, comment, header, metadata — fails
with the no-data 400, and `DELETE /delete-data` on the empty store is
itself a no-data 400 (clearing an empty store is an observable error). -/
theorem c8_empty_store (e : String) (la oa : Arg) (tz time_now : ℤ)
    (geocoder : ℝ → ℝ → Option String) :
    get_epochs none la oa = .error .noData ∧
    get_state_vectors none e la oa = .error .noData ∧
    calculate_speed none e la oa = .error (.http .noData) ∧
    get_location none e la oa tz geocoder = .error (.http .noData) ∧
    location_now none la oa tz time_now geocoder = .error (.http .noData) ∧
    get_comment none = .error .noData ∧
    get_header none = .error .noData ∧
    get_metadata none = .error .noData ∧
    delete_data none = .error .noData :=
  ⟨rfl, rfl, rfl, rfl, rfl, rfl, rfl, rfl, rfl⟩

/-! ### Claim C9 — malformed velocity components in `GET /epochs/{epoch}/speed` -/

/-- Claim C9 is FALSE on the code: a velocity component whose `#text` is not
a numeral makes `float` raise `ValueError`, which the `except TypeError`
clause does NOT catch — the exception escapes the handler instead of
becoming the client-facing invalid-epoch 400. -/
theorem c9_counterexample :
    calculate_speed (some dsBadText) "2024-001T00:00:00.000Z" .absent .absent =
      .error (.exn .valueError) ∧
    (Except.error (.exn .valueError) : Except Fail ValUnits) ≠
      .error (.http .invalidEpoch) :=
  ⟨rfl, by simp⟩

/-- Claim C9 (amended): only `TypeError`-shaped failures are recovered as
the invalid-epoch 400 — a failed lookup (error tuple or `None` record) or a
component node that is `None` or a bare string; a component that is a dict
whose text does not parse as a number raises `ValueError`, which escapes
the handler unrecovered. -/
theorem c9_speed_error_paths (ds : Dataset) (e : String) (la oa : Arg) :
    (∀ err, get_state_vectors (some ds) e la oa = .error err →
        calculate_speed (some ds) e la oa = .error (.http .invalidEpoch)) ∧
    (∀ sv, get_state_vectors (some ds) e la oa = .ok (some sv) →
        ((sv.xdot = .null ∨ ∃ s, sv.xdot = .str s) →
          calculate_speed (some ds) e la oa = .error (.http .invalidEpoch)) ∧
        (∀ t, sv.xdot = .dict (some t) → parseDecimal t = none →
          calculate_speed (some ds) e la oa = .error (.exn .valueError))) := by
  constructor
  · intro err h
    simp only [calculate_speed, h]
  · intro sv h
    constructor
    · intro hshape
      rcases hshape with h0 | ⟨s, h0⟩ <;> simp only [calculate_speed, h, h0, floatOfNode]
    · intro t h0 hp
      simp only [calculate_speed, h, h0, floatOfNode, hp]

/-- Witness for C9 (amended): the `ValueError` escape on a non-numeric
`X_DOT` text and the recovered 400 on an empty `X_DOT` element. -/
theorem c9_witness :
    get_state_vectors (some dsBadText) "2024-001T00:00:00.000Z" .absent .absent =
      .ok (some svBadText) ∧
    svBadText.xdot = .dict (some "abc") ∧ parseDecimal "abc" = none ∧
    calculate_speed (some dsBadText) "2024-001T00:00:00.000Z" .absent .absent =
      .error (.exn .valueError) ∧
    get_state_vectors (some dsBadNull) "2024-001T00:00:00.000Z" .absent .absent =
      .ok (some svBadNull) ∧
    svBadNull.xdot = .null ∧
    calculate_speed (some dsBadNull) "2024-001T00:00:00.000Z" .absent .absent =
      .error (.http .invalidEpoch) := by
  refine ⟨by decide, rfl, by decide, ?_, by decide, rfl, ?_⟩
  · exact ((c9_speed_error_paths dsBadText "2024-001T00:00:00.000Z" .absent .absent).2
      svBadText (by decide)).2 "abc" rfl (by decide)
  · exact ((c9_speed_error_paths dsBadNull "2024-001T00:00:00.000Z" .absent .absent).2
      svBadNull (by decide)).1 (Or.inl rfl)

/-! ### Claim C4 — `GET /now` selects the record nearest the probe instant -/

/-- Claim C4: for a loaded dataset whose epochs all convert, if `i` is the
first index minimising `|time_now - epochTime|`, then `GET /now` (with no
pagination arguments) returns that record's epoch together with the SIGNED
offset `time_now - epochTime`, which is positive exactly when the instant
is after the chosen epoch. -/
theorem c4_nearest (ds : Dataset) (tz time_now : ℤ) (geocoder : ℝ → ℝ → Option String)
    (times : List ℤ) (i : ℕ)
    (hts : epochTimes tz (ds.stateVectors.map StateVector.epoch) = some times)
    (hi : i < times.length)
    (hfirst : ∀ j, j < i → |time_now - times.getD i 0| < |time_now - times.getD j 0|)
    (hmin : ∀ j, j < times.length → |time_now - times.getD i 0| ≤ |time_now - times.getD j 0|) :
    ∃ r, location_now (some ds) .absent .absent tz time_now geocoder = .ok r ∧
      r.closest_epoch = (ds.stateVectors.map StateVector.epoch).getD i "" ∧
      r.seconds_from_now = time_now - times.getD i 0 ∧
      (0 < r.seconds_from_now ↔ times.getD i 0 < time_now) := by
  have hlen := epochTimes_length tz (ds.stateVectors.map StateVector.epoch) times hts
  have hne : ds.stateVectors ≠ [] := by
    intro h0
    rw [h0] at hlen
    simp at hlen
    rw [hlen] at hi
    simp at hi
  have hdef := get_epochs_default ds hne
  have hdlen : (times.map (fun t => time_now - t)).length = times.length := by simp
  have hgd : ∀ j, j < times.length →
      (times.map (fun t => time_now - t)).getD j 0 = time_now - times.getD j 0 :=
    fun j hj => getD_map_int times _ j hj
  have hv : pyMinAbs (times.map (fun t => time_now - t)) =
      some (time_now - times.getD i 0) := by
    rw [← hgd i hi]
    apply pyMinAbs_pick _ i (by omega)
    · intro j hj
      rw [hgd i hi, hgd j (by omega)]
      exact hfirst j hj
    · intro j hj
      rw [hgd i hi, hgd j (by omega)]
      exact hmin j (by omega)
  have hidx : (times.map (fun t => time_now - t)).findIdx
      (fun d => decide (d = time_now - times.getD i 0)) = i := by
    apply findIdx_first _ _ i 0 (by omega)
    · rw [hgd i hi]
      simp
    · intro j hj
      simp only [decide_eq_false_iff_not]
      rw [hgd j (by omega)]
      intro heq
      have h1 := hfirst j hj
      rw [heq] at h1
      exact absurd h1 (lt_irrefl _)
  refine ⟨⟨(ds.stateVectors.map StateVector.epoch).getD i "",
           time_now - times.getD i 0,
           get_location (some ds) ((ds.stateVectors.map StateVector.epoch).getD i "")
             .absent .absent tz geocoder,
           calculate_speed (some ds) ((ds.stateVectors.map StateVector.epoch).getD i "")
             .absent .absent⟩, ?_, rfl, rfl, sub_pos⟩
  simp only [location_now, hdef, hts, hv, hidx]

/-- Witness for C4 at the claim's own scenario: three records at offsets
`-100s`, `-10s`, `+50s` from the probe instant; the `-10s` record is chosen
and the signed offset is `10`. -/
theorem c4_witness :
    epochTimes 0 (ds3.stateVectors.map StateVector.epoch) =
      some [1704067200, 1704067290, 1704067350] ∧
    (∃ r, location_now (some ds3) .absent .absent 0 1704067300 geoNone = .ok r ∧
      r.closest_epoch = "2024-001T00:01:30.000Z" ∧
      r.seconds_from_now = 10 ∧ 0 < r.seconds_from_now) := by
  refine ⟨by decide, ?_⟩
  obtain ⟨r, h1, h2, h3, h4⟩ :=
    c4_nearest ds3 0 1704067300 geoNone [1704067200, 1704067290, 1704067350] 1
      (by decide) (by decide) (by decide) (by decide)
  refine ⟨r, h1, ?_, ?_, ?_⟩
  · rw [h2]; decide
  · rw [h3]; decide
  · rw [h3]; decide

/-! ### Claim C5 — speed is the exact Euclidean norm of the velocity -/

/-- Claim C5: for every matched record whose velocity components parse as
numbers, `GET /epochs/{epoch}/speed` returns `{value, units: "km/s"}` with
`value` the exact Euclidean norm of the velocity triple — no rounding is
applied. -/
theorem c5_speed (ds : Dataset) (e : String) (la oa : Arg) (sv : StateVector)
    (dx dy dz : DecimalNum)
    (h1 : get_state_vectors (some ds) e la oa = .ok (some sv))
    (hx : floatOfNode sv.xdot = .ok dx)
    (hy : floatOfNode sv.ydot = .ok dy)
    (hz : floatOfNode sv.zdot = .ok dz) :
    calculate_speed (some ds) e la oa =
      .ok ⟨Real.sqrt (dx.toReal ^ 2 + dy.toReal ^ 2 + dz.toReal ^ 2), "km/s"⟩ := by
  simp only [calculate_speed, h1, hx, hy, hz]

/-- Witness for C5 at the claim's scenario: velocities `(1,0,0)`, `(0,2,0)`,
`(0,0,3)` give speeds exactly `1`, `2`, `3` km/s. -/
theorem c5_witness :
    calculate_speed (some ds3) "2024-001T00:00:00.000Z" .absent .absent =
      .ok ⟨1, "km/s"⟩ ∧
    calculate_speed (some ds3) "2024-001T00:01:30.000Z" .absent .absent =
      .ok ⟨2, "km/s"⟩ ∧
    calculate_speed (some ds3) "2024-001T00:02:30.000Z" .absent .absent =
      .ok ⟨3, "km/s"⟩ := by
  refine ⟨?_, ?_, ?_⟩
  · rw [c5_speed ds3 "2024-001T00:00:00.000Z" .absent .absent
      (svNum "2024-001T00:00:00.000Z" "1.0" "0.0" "0.0" "1.0" "0.0" "0.0")
      ⟨10, 1⟩ ⟨0, 1⟩ ⟨0, 1⟩ (by decide) (by decide) (by decide) (by decide)]
    have : Real.sqrt ((⟨10, 1⟩ : DecimalNum).toReal ^ 2 + (⟨0, 1⟩ : DecimalNum).toReal ^ 2 +
        (⟨0, 1⟩ : DecimalNum).toReal ^ 2) = 1 := by
      norm_num [DecimalNum.toReal]
    rw [this]
  · rw [c5_speed ds3 "2024-001T00:01:30.000Z" .absent .absent
      (svNum "2024-001T00:01:30.000Z" "0.0" "1.0" "0.0" "0.0" "2.0" "0.0")
      ⟨0, 1⟩ ⟨20, 1⟩ ⟨0, 1⟩ (by decide) (by decide) (by decide) (by decide)]
    have : Real.sqrt ((⟨0, 1⟩ : DecimalNum).toReal ^ 2 + (⟨20, 1⟩ : DecimalNum).toReal ^ 2 +
        (⟨0, 1⟩ : DecimalNum).toReal ^ 2) = 2 := by
      have h4 : ((⟨0, 1⟩ : DecimalNum).toReal ^ 2 + (⟨20, 1⟩ : DecimalNum).toReal ^ 2 +
          (⟨0, 1⟩ : DecimalNum).toReal ^ 2) = 2 ^ 2 := by
        norm_num [DecimalNum.toReal]
      rw [h4, Real.sqrt_sq (by norm_num : (0:ℝ) ≤ 2)]
    rw [this]
  · rw [c5_speed ds3 "2024-001T00:02:30.000Z" .absent .absent
      (svNum "2024-001T00:02:30.000Z" "0.0" "0.0" "1.0" "0.0" "0.0" "3.0")
      ⟨0, 1⟩ ⟨0, 1⟩ ⟨30, 1⟩ (by decide) (by decide) (by decide) (by decide)]
    have : Real.sqrt ((⟨0, 1⟩ : DecimalNum).toReal ^ 2 + (⟨0, 1⟩ : DecimalNum).toReal ^ 2 +
        (⟨30, 1⟩ : DecimalNum).toReal ^ 2) = 3 := by
      have h4 : ((⟨0, 1⟩ : DecimalNum).toReal ^ 2 + (⟨0, 1⟩ : DecimalNum).toReal ^ 2 +
          (⟨30, 1⟩ : DecimalNum).toReal ^ 2) = 3 ^ 2 := by
        norm_num [DecimalNum.toReal]
      rw [h4, Real.sqrt_sq (by norm_num : (0:ℝ) ≤ 3)]
    rw [this]

/-! ### Claim C7 — longitude lies in `[-180, 180]` after the one-step wrap -/

/-- Claim C7: for every matched record whose position components parse as
numbers, the longitude returned by `GET /epochs/{epoch}/location` lies in
`[-180, 180]`; and `correct_longtitude` subtracts 360 exactly once above
180, adds 360 exactly once below -180, and leaves in-range values
unchanged. -/
theorem c7_longitude (ds : Dataset) (e : String) (la oa : Arg) (tz : ℤ)
    (geocoder : ℝ → ℝ → Option String) (sv : StateVector) (qx qy qz : DecimalNum) (tmv : Tm)
    (h1 : get_state_vectors (some ds) e la oa = .ok (some sv))
    (hx : floatOfNode sv.x = .ok qx)
    (hy : floatOfNode sv.y = .ok qy)
    (hz : floatOfNode sv.z = .ok qz)
    (hst : strptimeYJ (dropLast5 sv.epoch) = some tmv) :
    (∃ loc, get_location (some ds) e la oa tz geocoder = .ok loc ∧
      -180 ≤ loc.longtitude ∧ loc.longtitude ≤ 180) ∧
    (∀ r : ℝ, (180 < r → correct_longtitude r = r - 360) ∧
      (r < -180 → correct_longtitude r = r + 360) ∧
      (-180 ≤ r → r ≤ 180 → correct_longtitude r = r)) := by
  have hbound : ∀ A T : ℝ, -180 < A → A ≤ 180 → -12 ≤ T → T ≤ 12 →
      -180 ≤ correct_longtitude (A - T * (360 / 24) + 14) ∧
        correct_longtitude (A - T * (360 / 24) + 14) ≤ 180 := by
    intro A T hA1 hA2 hT1 hT2
    unfold correct_longtitude
    split_ifs <;> constructor <;> linarith
  have hh := gmHour_bounds (mktime tz tmv)
  have hm := gmMin_bounds (mktime tz tmv)
  have hhr1 : (0 : ℝ) ≤ (gmHour (mktime tz tmv) : ℝ) := by exact_mod_cast hh.1
  have hhr2 : (gmHour (mktime tz tmv) : ℝ) ≤ 23 := by exact_mod_cast hh.2
  have hmr1 : (0 : ℝ) ≤ (gmMin (mktime tz tmv) : ℝ) := by exact_mod_cast hm.1
  have hmr2 : (gmMin (mktime tz tmv) : ℝ) ≤ 59 := by exact_mod_cast hm.2
  have hA1 : -180 < degrees (atan2 qy.toReal qx.toReal) :=
    neg_180_lt_degrees (neg_pi_lt_atan2 _ _)
  have hA2 : degrees (atan2 qy.toReal qx.toReal) ≤ 180 :=
    degrees_le_180 (atan2_le_pi _ _)
  have hT1 : (-12 : ℝ) ≤
      ((gmHour (mktime tz tmv) : ℝ) - 12) + (gmMin (mktime tz tmv) : ℝ) / 60 := by
    linarith
  have hT2 : ((gmHour (mktime tz tmv) : ℝ) - 12) + (gmMin (mktime tz tmv) : ℝ) / 60 ≤ 12 := by
    linarith
  have hmain := hbound _ _ hA1 hA2 hT1 hT2
  constructor
  · refine ⟨locationBody qx qy qz (mktime tz tmv) geocoder, ?_, ?_, ?_⟩
    · simp only [get_location, h1, hx, hy, hz, hst]
    · rw [locationBody_longtitude]
      exact hmain.1
    · rw [locationBody_longtitude]
      exact hmain.2
  · intro r
    refine ⟨?_, ?_, ?_⟩
    · intro h
      unfold correct_longtitude
      rw [if_pos h]
    · intro h
      unfold correct_longtitude
      rw [if_neg (by linarith), if_pos h]
    · intro hr1 hr2
      unfold correct_longtitude
      rw [if_neg (by linarith), if_neg (by linarith)]

/-- Witness for C7 at a concrete record with position `(1, 0, 0)`. -/
theorem c7_witness :
    get_state_vectors (some ds3) "2024-001T00:00:00.000Z" .absent .absent =
      .ok (some (svNum "2024-001T00:00:00.000Z" "1.0" "0.0" "0.0" "1.0" "0.0" "0.0")) ∧
    floatOfNode (svNum "2024-001T00:00:00.000Z" "1.0" "0.0" "0.0" "1.0" "0.0" "0.0").x =
      .ok ⟨10, 1⟩ ∧
    strptimeYJ (dropLast5 "2024-001T00:00:00.000Z") = some ⟨2024, 1, 0, 0, 0⟩ ∧
    (∃ loc, get_location (some ds3) "2024-001T00:00:00.000Z" .absent .absent 0 geoNone =
        .ok loc ∧ -180 ≤ loc.longtitude ∧ loc.longtitude ≤ 180) :=
  ⟨by decide, by decide, by decide,
   (c7_longitude ds3 "2024-001T00:00:00.000Z" .absent .absent 0 geoNone
     (svNum "2024-001T00:00:00.000Z" "1.0" "0.0" "0.0" "1.0" "0.0" "0.0")
     ⟨10, 1⟩ ⟨0, 1⟩ ⟨0, 1⟩ ⟨2024, 1, 0, 0, 0⟩
     (by decide) (by decide) (by decide) (by decide) (by decide)).1⟩

/-! ### Claim C10 — latitude lies in `[-90, 90]` -/

/-- Claim C10: for every matched record whose position components parse as
numbers, the latitude returned by `GET /epochs/{epoch}/location` lies in
`[-90, 90]`, because `atan2`'s second argument `sqrt(x^2 + y^2)` is
non-negative. -/
theorem c10_latitude (ds : Dataset) (e : String) (la oa : Arg) (tz : ℤ)
    (geocoder : ℝ → ℝ → Option String) (sv : StateVector) (qx qy qz : DecimalNum) (tmv : Tm)
    (h1 : get_state_vectors (some ds) e la oa = .ok (some sv))
    (hx : floatOfNode sv.x = .ok qx)
    (hy : floatOfNode sv.y = .ok qy)
    (hz : floatOfNode sv.z = .ok qz)
    (hst : strptimeYJ (dropLast5 sv.epoch) = some tmv) :
    ∃ loc, get_location (some ds) e la oa tz geocoder = .ok loc ∧
      -90 ≤ loc.latitude ∧ loc.latitude ≤ 90 := by
  have harg : |atan2 qz.toReal (Real.sqrt (qx.toReal ^ 2 + qy.toReal ^ 2))| ≤ Real.pi / 2 :=
    abs_atan2_le _ _ (Real.sqrt_nonneg _)
  have hlo := neg_90_le_degrees (neg_le_of_abs_le harg)
  have hhi := degrees_le_90 (le_of_abs_le harg)
  refine ⟨locationBody qx qy qz (mktime tz tmv) geocoder, ?_, ?_, ?_⟩
  · simp only [get_location, h1, hx, hy, hz, hst]
  · rw [locationBody_latitude]
    exact hlo
  · rw [locationBody_latitude]
    exact hhi

/-- Witness for C10 at the same concrete record as C7. -/
theorem c10_witness :
    get_state_vectors (some ds3) "2024-001T00:01:30.000Z" .absent .absent =
      .ok (some (svNum "2024-001T00:01:30.000Z" "0.0" "1.0" "0.0" "0.0" "2.0" "0.0")) ∧
    floatOfNode (svNum "2024-001T00:01:30.000Z" "0.0" "1.0" "0.0" "0.0" "2.0" "0.0").z =
      .ok ⟨0, 1⟩ ∧
    strptimeYJ (dropLast5 "2024-001T00:01:30.000Z") = some ⟨2024, 1, 0, 1, 30⟩ ∧
    (∃ loc, get_location (some ds3) "2024-001T00:01:30.000Z" .absent .absent 0 geoNone =
        .ok loc ∧ -90 ≤ loc.latitude ∧ loc.latitude ≤ 90) :=
  ⟨by decide, by decide, by decide,
   c10_latitude ds3 "2024-001T00:01:30.000Z" .absent .absent 0 geoNone
     (svNum "2024-001T00:01:30.000Z" "0.0" "1.0" "0.0" "0.0" "2.0" "0.0")
     ⟨0, 1⟩ ⟨10, 1⟩ ⟨0, 1⟩ ⟨2024, 1, 0, 1, 30⟩
     (by decide) (by decide) (by decide) (by decide) (by decide)⟩

end IssTracker
